import Mathlib

/-!
Shallow embedding of the "92Y Career Auto-Pilot" application (src/app.py)
and proofs about its helper functions and workflow steps.

Python strings are modelled as Lean `String`; Python `None` as `Option`;
exceptions as `Except String`.  The Python string primitives used by the
source (strip, split, lower, upper, startswith, endswith, slicing) are
embedded as executable character-list operations below, so that every
definition evaluates inside the kernel.  Machine-level details (font
sizes, colors, network I/O) are either carried as constants in the
embedded data types or omitted when no claim depends on them, as noted
next to each definition.
-/

namespace Autopilot

-- ============================================================
-- PYTHON STRING PRIMITIVES
-- ============================================================

/-- Python `s.strip()`: drop leading and trailing whitespace.  (On the
characters appearing in this program the Python and Lean whitespace
classes agree.) -/
def pyTrim (s : String) : String :=
  ⟨((s.data.dropWhile Char.isWhitespace).reverse.dropWhile Char.isWhitespace).reverse⟩

/-- Python `s.lower()` (ASCII, which covers every use in the source). -/
def pyLower (s : String) : String :=
  ⟨s.data.map Char.toLower⟩

/-- Python `s.upper()` (ASCII, which covers every use in the source). -/
def pyUpper (s : String) : String :=
  ⟨s.data.map Char.toUpper⟩

/-- Python `s.startswith(p)`. -/
def strStarts (s p : String) : Bool :=
  p.data.isPrefixOf s.data

/-- Python `s.endswith(p)`. -/
def strEnds (s p : String) : Bool :=
  p.data.reverse.isPrefixOf s.data.reverse

/-- Python slice `s[n:]`. -/
def strDrop (s : String) (n : Nat) : String :=
  ⟨s.data.drop n⟩

/-- Python slice `s[:-n]` (for `n ≤ len(s)`). -/
def strDropRight (s : String) (n : Nat) : String :=
  ⟨s.data.take (s.data.length - n)⟩

/-- Split a character list at every character satisfying `p`, keeping
empty fragments (the list analogue of Python `s.split(sep)` for a
one-character separator class). -/
def splitWhen (p : Char → Bool) : List Char → List (List Char)
  | [] => [[]]
  | x :: rest =>
    match splitWhen p rest with
    | [] => [[]]
    | w :: ws => if p x then [] :: w :: ws else (x :: w) :: ws

/-- Python `s.split(c)` for a one-character separator: fragments between
separator occurrences, empty fragments kept. -/
def charSplit (c : Char) (s : String) : List String :=
  (splitWhen (· == c) s.data).map (fun w => (⟨w⟩ : String))

/-- Python `s.split()` with no argument: split on whitespace runs,
dropping empty fragments. -/
def pySplitWs (s : String) : List String :=
  ((splitWhen Char.isWhitespace s.data).map (fun w => (⟨w⟩ : String))).filter (· ≠ "")

/-- Python `needle in haystack` on lists of characters: `pat` occurs as a
contiguous sublist. -/
def hasSubList (pat : List Char) : List Char → Bool
  | [] => pat.isEmpty
  | l@(_ :: rest) => pat.isPrefixOf l || hasSubList pat rest

/-- Python `pat in s` substring test on strings. -/
def containsSub (s pat : String) : Bool :=
  hasSubList pat.data s.data

/-- `re.sub(r"[^a-zA-Z0-9]", "_", s)` from src/app.py lines 1122-1123:
each non-ASCII-alphanumeric character becomes an underscore. -/
def slugify (s : String) : String :=
  ⟨s.data.map (fun c => if c.isAlphanum then c else '_')⟩

-- ============================================================
-- INPUT VALIDATION (src/app.py, validate_inputs, lines 680-687)
-- ============================================================

/-- `validate_inputs(api_key, job_desc, target_title)` from src/app.py.
Python falsiness of a string is emptiness. Returns `some message` on the
first failing check, `none` when all checks pass. -/
def validate_inputs (api_key job_desc target_title : String) : Option String :=
  if api_key = "" then
    some "API Key is required."
  else if job_desc = "" ∨ (pySplitWs job_desc).length < 15 then
    some "Job Description is too short. Paste the full JD (minimum ~15 words)."
  else if target_title = "" ∨ (pyTrim target_title).length < 3 then
    some "Target Job Title is required."
  else
    none

-- ============================================================
-- FILENAME SLUGS (src/app.py, lines 1120-1123)
-- ============================================================

/-- Company slug from the results block: `"Resume"` unless a truthy company
name other than the sentinel `"Unknown Company"` is in session state. -/
def company_slug (company_name : Option String) : String :=
  match company_name with
  | some c => if c ≠ "" ∧ c ≠ "Unknown Company" then slugify c else "Resume"
  | none => "Resume"

/-- Title slug: `re.sub(r"[^a-zA-Z0-9]", "_", target_title) if target_title
else "Role"`. -/
def title_slug (target_title : String) : String :=
  if target_title ≠ "" then slugify target_title else "Role"

-- ============================================================
-- MODEL RESOLUTION (src/app.py, init_model, lines 44-55)
-- ============================================================

/-- `init_model` from src/app.py, modelled over the outcome of the catalog
listing call `genai.list_models()` (a list of model identifiers, or an
error).  `genai.configure` and the `GenerativeModel` constructor perform no
fallible work, so the returned handle is identified with its model-name
string.  The body scans for the first identifier containing `"flash"`, then
the first containing `"pro"`; any listing error or an exhausted scan falls
back to the literal `"gemini-1.5-flash"`. -/
def init_model (listing : Except String (List String)) : String :=
  match listing with
  | .error _ => "gemini-1.5-flash"
  | .ok ms =>
    match ms.find? (fun m => containsSub m "flash") with
    | some m => m
    | none =>
      match ms.find? (fun m => containsSub m "pro") with
      | some m => m
      | none => "gemini-1.5-flash"

-- ============================================================
-- FILE READER (src/app.py, read_file, lines 62-77)
-- ============================================================

/-- The two `ValueError` shapes that `read_file` raises, as the spec names
them: empty extracted content, or an extension that is neither `.pdf` nor
`.docx` (the latter carries the original filename). -/
inductive ReadError where
  | emptyContent (msg : String)
  | unsupportedFileType (filename : String)
deriving DecidableEq, Repr

/-- An uploaded file, for the purpose of `read_file`: its declared name,
what the PDF parser would extract per page (`page.extract_text()` may
return `None`, modelled as `Option String`), and what the DOCX parser would
extract per paragraph.  Which field is consulted is decided solely by the
extension of the name, exactly as in the source. -/
structure UploadedFile where
  name : String
  pdfPages : List (Option String)
  docxParas : List String
deriving Repr

/-- Pages joined: `"\n".join(page.extract_text() or "" for page in pages)`. -/
def pdfText (pages : List (Option String)) : String :=
  String.intercalate "\n" (pages.map (fun p => p.getD ""))

/-- Paragraphs joined: `"\n".join(p.text for p in doc.paragraphs)`. -/
def docxText (paras : List String) : String :=
  String.intercalate "\n" paras

/-- `read_file` from src/app.py: dispatch on the lower-cased declared
filename; single attempt, no retries. -/
def read_file (f : UploadedFile) : Except ReadError String :=
  let name := pyLower f.name
  if strEnds name ".pdf" then
    let text := pyTrim (pdfText f.pdfPages)
    if text = "" then .error (.emptyContent "PDF appears to be scanned/image-only.")
    else .ok text
  else if strEnds name ".docx" then
    let text := pyTrim (docxText f.docxParas)
    if text = "" then .error (.emptyContent "DOCX file appears empty.")
    else .ok text
  else
    .error (.unsupportedFileType f.name)

-- ============================================================
-- LLM CALL WRAPPER (src/app.py, call_model, lines 84-98)
-- ============================================================

/-- The leading half of the fence stripping in `call_model`:
`re.sub(r"^\x60\x60\x60(?:json)?\s*", "", text)`.  The anchored pattern
removes one leading fence marker, an optional `json` tag, and any run of
whitespace after it.  (At its use site the guard `text.startswith`
has already established that the fence marker is present.) -/
def stripLeadFence (s : String) : String :=
  if strStarts s "```" then
    let rest := strDrop s 3
    let rest := if strStarts rest "json" then strDrop rest 4 else rest
    ⟨rest.data.dropWhile Char.isWhitespace⟩
  else s

/-- The trailing half of the fence stripping in `call_model`:
`re.sub(r"\s*\x60\x60\x60$", "", text)`.  Because the input was trimmed
first it has no trailing newline, so `$` is end-of-string: when the string
ends with a fence marker, that marker and the whitespace run before it are
removed. -/
def stripTrailFence (s : String) : String :=
  if strEnds s "```" then
    ⟨(((strDropRight s 3).data.reverse.dropWhile Char.isWhitespace).reverse)⟩
  else s

/-- Response normalization inside `call_model`: `response.text.strip()`,
then, only when the trimmed text begins with a code-fence marker, both
regular-expression substitutions. -/
def clean_response (raw : String) : String :=
  let text := pyTrim raw
  if strStarts text "```" then stripTrailFence (stripLeadFence text) else text

/-- The retry loop of `call_model`, at a given zero-based attempt number
with `remaining = retries - attempt` further attempts allowed (the
source's `attempt < retries` test is exactly `remaining > 0`).  `gen n` is
the outcome of `model.generate_content(prompt)` (plus reading `.text`) on
attempt `n`.  Returns the wrapper result together with the list of sleep
durations `1.5 * (attempt + 1)` (in seconds, as exact rationals) the loop
performed, in order. -/
def call_modelLoop (gen : Nat → Except String String) (attempt remaining : Nat) :
    Except String String × List ℚ :=
  match gen attempt with
  | .ok raw => (.ok (clean_response raw), [])
  | .error e =>
    match remaining with
    | 0 => (.error e, [])
    | rem + 1 =>
      let r := call_modelLoop gen (attempt + 1) rem
      (r.1, ((3 : ℚ) / 2 * ((attempt : ℚ) + 1)) :: r.2)

/-- `call_model(model, prompt, retries)` from src/app.py: up to
`retries + 1` total attempts starting at attempt 0; the cleaned text of
the first successful attempt, or the error of the final attempt. -/
def call_model (gen : Nat → Except String String) (retries : Nat) :
    Except String String × List ℚ :=
  call_modelLoop gen 0 retries

/-- A model whose first three attempts give the three listed outcomes
(and every later attempt the third outcome); used to state retry facts
without side conditions. -/
def genOf (r0 r1 r2 : Except String String) : Nat → Except String String
  | 0 => r0
  | 1 => r1
  | _ => r2

-- ============================================================
-- KEYWORD EXTRACTION VALIDATION AND CONFIRMATION
-- (src/app.py, lines 982-985 and 1023-1037)
-- ============================================================

/-- The validation applied to the parsed keyword response in Step 1:
`if not isinstance(kws, list) or len(kws) < 3: raise ValueError(...)`.
The `isinstance` half is enforced by typing in this embedding (a non-list
JSON value cannot reach this function); the length check is what remains. -/
def validate_extracted_keywords (kws : List String) : Except String (List String) :=
  if kws.length < 3 then .error "Too few keywords returned." else .ok kws

/-- The "Confirm Keywords & Generate" handler (src/app.py lines 1023-1037):
`vals` are the contents of the per-keyword text boxes (one per extracted
keyword, defaulting to the keyword itself), `add_kw` is the optional
add-a-keyword box.  `edited` keeps each trimmed non-empty value; the
trimmed add-box value is appended when non-empty.  The result becomes the
confirmed keyword list (with `keywords_confirmed` set to true). -/
def confirm_keywords (vals : List String) (add_kw : String) : List String :=
  let edited := (vals.map pyTrim).filter (· ≠ "")
  if pyTrim add_kw ≠ "" then edited ++ [pyTrim add_kw] else edited

-- ============================================================
-- STEP 2: THREE-ARTIFACT GENERATION PASS (src/app.py, lines 1051-1101)
-- ============================================================

/-- Python truthiness of an optional string: present and non-empty. -/
def bodyPresent : Option String → Bool
  | some s => s ≠ ""
  | none => false

/-- The session-state fields written by the Step 2 block. -/
structure GenResult where
  resume_md : Option String
  cover_letter_md : Option String
  interview_md : Option String
  ats_analysis : Option String
  errors : List String
  generation_complete : Bool
  generated_at : Option String
  hard_failure : Bool
deriving DecidableEq, Repr

/-- The Step 2 generation pass (src/app.py lines 1051-1101), abstracted
over the outcomes of its four model calls.  `resume_call`, `cover_call`
and `interview_call` are the outcomes of the three artifact calls (each a
`call_model` invocation); `ats_call` maps a resume body to the outcome of
the ATS call combined with its JSON parse.  Each artifact call is wrapped
in its own try/except: a failure stores `none` and appends the labeled
warning; the ATS step runs only when the resume body is truthy and stores
`none` on failure without a warning.  The pass completes (setting
`generation_complete` and the timestamp `now`) iff at least one artifact
body is truthy; otherwise the hard-failure message
("All sections failed to generate. Check your API key and try again.")
is shown, which `hard_failure` records. -/
def generation_pass (resume_call cover_call interview_call : Except String String)
    (ats_call : String → Except String String) (now : String) : GenResult :=
  let resume_md := resume_call.toOption
  let cover_letter_md := cover_call.toOption
  let interview_md := interview_call.toOption
  let errors :=
    (match resume_call with | .error e => ["Resume: " ++ e] | .ok _ => []) ++
    (match cover_call with | .error e => ["Cover Letter: " ++ e] | .ok _ => []) ++
    (match interview_call with | .error e => ["Interview Prep: " ++ e] | .ok _ => [])
  let ats_analysis :=
    match resume_md with
    | some t => if t ≠ "" then (ats_call t).toOption else none
    | none => none
  let complete := bodyPresent resume_md || bodyPresent cover_letter_md || bodyPresent interview_md
  { resume_md := resume_md
    cover_letter_md := cover_letter_md
    interview_md := interview_md
    ats_analysis := ats_analysis
    errors := errors
    generation_complete := complete
    generated_at := if complete then some now else none
    hard_failure := !complete }

-- ============================================================
-- CONTACT INFO (src/app.py, lines 854-862, 210-219, 353-364, 428-436)
-- ============================================================

/-- The contact-info record built from the five form fields. -/
structure ContactInfo where
  name : String
  email : String
  city : String
  phone : String
  linkedin : String
deriving DecidableEq, Repr

/-- Assembly of `contact_info` (src/app.py lines 854-862): each field is
trimmed (a falsy, i.e. empty, field stays empty), and when the name field
is empty the whole record is replaced by `None`. -/
def assemble_contact_info (name email city phone linkedin : String) : Option ContactInfo :=
  let ci : ContactInfo :=
    { name := pyTrim name, email := pyTrim email, city := pyTrim city
      phone := pyTrim phone, linkedin := pyTrim linkedin }
  if ci.name = "" then none else some ci

/-- `_contact_block` (src/app.py lines 210-219): name plus the pipe-joined
bold contact line, substituting bracketed placeholders for falsy fields and
appending the network URL only when truthy. -/
def contact_block (ci : ContactInfo) : String × String :=
  let city := if ci.city = "" then "[City, State]" else ci.city
  let phone := if ci.phone = "" then "[Phone]" else ci.phone
  let email := if ci.email = "" then "[Email]" else ci.email
  let parts := ["**" ++ city ++ "**", "**" ++ phone ++ "**", "**" ++ email ++ "**"]
  let parts := if ci.linkedin ≠ "" then parts ++ ["**" ++ ci.linkedin ++ "**"] else parts
  (ci.name, String.intercalate " | " parts)

/-- The `contact_str` fragment of `_context_block` (src/app.py lines
248-251): empty when no contact record exists. -/
def context_contact_str (contact : Option ContactInfo) : String :=
  match contact with
  | some ci =>
    let nc := contact_block ci
    "\n\nCANDIDATE CONTACT INFO (use exactly as provided):\n  Name: " ++ nc.1 ++
      "\n  Contact Line: " ++ nc.2
  | none => ""

/-- The `header_block` of `prompt_resume` (src/app.py lines 353-364):
built from contact info when a record with a truthy name exists, otherwise
the full bracketed-placeholder header. -/
def resume_header_block (contact : Option ContactInfo) (target_title : String) : String :=
  let placeholder :=
    "# [Candidate Name]\n### **" ++ target_title ++
      "**\n**[City, State]** | **[Phone]** | **[Email]** | **[LinkedIn URL]**"
  match contact with
  | some ci =>
    if ci.name ≠ "" then
      let city := if ci.city = "" then "[City, State]" else ci.city
      let phone := if ci.phone = "" then "[Phone]" else ci.phone
      let email := if ci.email = "" then "[Email]" else ci.email
      let parts := ["**" ++ city ++ "**", "**" ++ phone ++ "**", "**" ++ email ++ "**"]
      let parts := if ci.linkedin ≠ "" then parts ++ ["**" ++ ci.linkedin ++ "**"] else parts
      "# " ++ ci.name ++ "\n### **" ++ target_title ++ "**\n" ++ String.intercalate " | " parts
    else placeholder
  | none => placeholder

/-- The `(cl_name, cl_header)` pair of `prompt_cover_letter` (src/app.py
lines 428-436). -/
def cover_letter_header (contact : Option ContactInfo) : String × String :=
  match contact with
  | some ci =>
    if ci.name ≠ "" then
      let city := if ci.city = "" then "[City, State]" else ci.city
      let phone := if ci.phone = "" then "[Phone]" else ci.phone
      let email := if ci.email = "" then "[Email]" else ci.email
      (ci.name, ci.name ++ "\n" ++ city ++ " | " ++ phone ++ " | " ++ email)
    else ("[Full Name]", "[Full Name]\n[City, State] | [Phone] | [Email]")
  | none => ("[Full Name]", "[Full Name]\n[City, State] | [Phone] | [Email]")

-- ============================================================
-- MARKDOWN -> DOCX RENDERER (src/app.py, markdown_to_docx lines 528-642
-- and _add_runs lines 645-659)
-- ============================================================

/-- A text run as `_add_runs` emits it.  The constant font settings
(Calibri, 10.5pt) applied to every run are omitted. -/
structure Run where
  text : String
  bold : Bool
  italic : Bool
deriving DecidableEq, Repr

/-- Inline-parsing regex, first alternative `\*\*.*?\*\*`, after the
opening marker: split `xs` as `inner ++ close ++ rem` where `close` is the
first (lazy) occurrence of a double asterisk. -/
def findClose2 : List Char → Option (List Char × List Char)
  | '*' :: '*' :: rest => some ([], rest)
  | c :: rest => (findClose2 rest).map (fun pr => (c :: pr.1, pr.2))
  | [] => none

/-- Second alternative `\*.*?\*`, after the opening asterisk: split at the
first single closing asterisk. -/
def findClose1 : List Char → Option (List Char × List Char)
  | '*' :: rest => some ([], rest)
  | c :: rest => (findClose1 rest).map (fun pr => (c :: pr.1, pr.2))
  | [] => none

/-- A match of the alternation `(\*\*.*?\*\*|\*.*?\*)` anchored at the
head of `cs`: the regex engine tries the double-asterisk alternative
first, then the single-asterisk alternative (whose lazy body may consume
nothing, so `**` with no later close still matches as an empty-bodied
single-asterisk span). -/
def matchAt : List Char → Option (List Char × List Char)
  | '*' :: '*' :: rest =>
    (match findClose2 rest with
     | some (inner, rem) => some ('*' :: '*' :: (inner ++ ['*', '*']), rem)
     | none => some (['*', '*'], rest))
  | '*' :: rest =>
    (match findClose1 rest with
     | some (inner, rem) => some ('*' :: (inner ++ ['*']), rem)
     | none => none)
  | _ => none

/-- `re.split(r"(\*\*.*?\*\*|\*.*?\*)", text)` with the empty fragments
dropped, as `_add_runs` does (`if not part: continue`): a left-to-right
scan emitting plain fragments between matches and the matches themselves.
`fuel` bounds the number of scan steps; each step consumes at least one
character, so an initial fuel of the text length is always sufficient. -/
def scanRuns (fuel : Nat) (acc : List Char) (cs : List Char) : List (List Char) :=
  match fuel, cs with
  | _, [] => if acc.isEmpty then [] else [acc.reverse]
  | 0, cs => if acc.isEmpty then [cs] else [acc.reverse, cs]
  | fuel + 1, c :: rest =>
    match matchAt (c :: rest) with
    | some (m, rem) =>
      (if acc.isEmpty then [] else [acc.reverse]) ++ m :: scanRuns fuel [] rem
    | none => scanRuns fuel (c :: acc) rest

/-- Per-part classification in `_add_runs`: double-asterisk-delimited
parts become bold runs (delimiters sliced off), single-asterisk-delimited
parts italic runs, everything else a plain run. -/
def classifyRun (part : List Char) : Run :=
  let s : String := ⟨part⟩
  if strStarts s "**" ∧ strEnds s "**" then
    { text := strDropRight (strDrop s 2) 2, bold := true, italic := false }
  else if strStarts s "*" ∧ strEnds s "*" then
    { text := strDropRight (strDrop s 1) 1, bold := false, italic := true }
  else
    { text := s, bold := false, italic := false }

/-- `_add_runs(paragraph, text)` from src/app.py: the runs added to the
paragraph, in order. -/
def add_runs (text : String) : List Run :=
  (scanRuns text.data.length [] text.data).map classifyRun

/-- `re.sub(r"\*\x7b1,2\x7d", "", s)`: every asterisk belongs to some
match of the pattern (a lone asterisk matches it too), so the substitution
deletes exactly the asterisks. -/
def removeStars (s : String) : String :=
  ⟨s.data.filter (· ≠ '*')⟩

/-- Python `line.lstrip("# ").strip()`. -/
def stripHashes (s : String) : String :=
  pyTrim ⟨s.data.dropWhile (fun c => c == '#' || c == ' ')⟩

/-- Python `line.strip("*")`: remove leading and trailing asterisks. -/
def stripStarsBoth (s : String) : String :=
  ⟨((s.data.dropWhile (· == '*')).reverse.dropWhile (· == '*')).reverse⟩

/-- Table-separator test: `all(c in "-| :" for c in row)`. -/
def isSeparatorRow (row : String) : Bool :=
  row.data.all (fun c => c == '-' || c == '|' || c == ':' || c == ' ')

/-- Cell extraction: `[c.strip() for c in row.split("|")[1:-1]]`. -/
def rowCells (row : String) : List String :=
  (((charSplit '|' row).drop 1).dropLast).map pyTrim

/-- One element of the produced document.  Style constants that a claim
refers to are carried explicitly: the section header records its bold face
and bottom border; color, point size and margin constants are omitted. -/
inductive DocElem where
  | h1 (text : String)
  | h3 (text : String)
  | sectionHeader (text : String) (bold : Bool) (bottomBorder : Bool)
  | bulletItem (runs : List Run)
  | contactLine (text : String)
  | docTable (cells : List (List String))
  | boldPara (runs : List Run)
  | italicPara (text : String)
  | plainPara (runs : List Run)
deriving DecidableEq, Repr

/-- The table constructed from the surviving rows of a pipe block: sized
`len(table_lines) × max(len(r))`, each cell set to its asterisk-stripped
text, with unset trailing cells left at the empty default. -/
def mkTable (table_lines : List (List String)) : DocElem :=
  let ncols := (table_lines.map List.length).foldl max 0
  .docTable (table_lines.map (fun r => (r.map removeStars) ++ List.replicate (ncols - r.length) ""))

/-- The line loop of `markdown_to_docx`, with ordered first-match-wins
dispatch per non-blank (stripped) line.  The pipe-table branch consumes
the whole run of lines whose stripped form starts with a pipe, drops
separator rows, and emits one table when any row survives.  `fuel` bounds
the loop iterations; each iteration consumes at least one line, so an
initial fuel of the number of lines is always sufficient. -/
def renderGo : Nat → List String → List DocElem
  | 0, _ => []
  | _, [] => []
  | fuel + 1, l0 :: rest =>
    let line := pyTrim l0
    if line = "" then renderGo fuel rest
    else if strStarts line "# " && !(strStarts line "## ") then
      .h1 (stripHashes line) :: renderGo fuel rest
    else if strStarts line "### " then
      .h3 (removeStars (stripHashes line)) :: renderGo fuel rest
    else if strStarts line "## " then
      .sectionHeader (pyUpper (stripHashes line)) true true :: renderGo fuel rest
    else if strStarts line "* " || strStarts line "- " then
      .bulletItem (add_runs (pyTrim (strDrop line 2))) :: renderGo fuel rest
    else if line.data.contains '|' &&
        (line.data.contains '@' || containsSub (pyLower line) "phone"
          || containsSub (pyLower line) "linkedin") then
      .contactLine (pyTrim (removeStars line)) :: renderGo fuel rest
    else if strStarts line "|" && strEnds line "|" then
      let block := (l0 :: rest).takeWhile (fun s => strStarts (pyTrim s) "|")
      let rest' := (l0 :: rest).dropWhile (fun s => strStarts (pyTrim s) "|")
      let table_lines := block.filterMap (fun s =>
        let row := pyTrim s
        if isSeparatorRow row then none else some (rowCells row))
      (if table_lines.isEmpty then [] else [mkTable table_lines]) ++ renderGo fuel rest'
    else if strStarts line "**" && containsSub (strDrop line 2) "**" then
      .boldPara (add_runs line) :: renderGo fuel rest
    else if strStarts line "*" && strEnds line "*" && !(strStarts line "**") then
      .italicPara (pyTrim (stripStarsBoth line)) :: renderGo fuel rest
    else
      .plainPara (add_runs line) :: renderGo fuel rest

/-- `markdown_to_docx(md_text)` from src/app.py, as the ordered list of
document elements it adds (`lines = md_text.split("\n")`, then the
first-match-wins loop). -/
def markdown_to_docx (md : String) : List DocElem :=
  let lines := charSplit '\n' md
  renderGo lines.length lines

-- ============================================================
-- HELPER LEMMAS
-- ============================================================

theorem find_first_skip (p : String → Bool) (pre : List String) (m : String) (post : List String)
    (h : ∀ x ∈ pre, p x = false) (hm : p m = true) :
    (pre ++ m :: post).find? p = some m := by
  induction pre with
  | nil => simp [List.find?, hm]
  | cons a as ih =>
    have ha : p a = false := h a (by simp)
    simp only [List.cons_append, List.find?, ha]
    exact ih (fun x hx => h x (by simp [hx]))

theorem find_none_of_all_false (p : String → Bool) (ms : List String)
    (h : ∀ x ∈ ms, p x = false) : ms.find? p = none := by
  induction ms with
  | nil => rfl
  | cons a as ih =>
    have ha : p a = false := h a (by simp)
    simp only [List.find?, ha]
    exact ih (fun x hx => h x (by simp [hx]))

-- ============================================================
-- CLAIM THEOREMS
-- ============================================================

/-- C1: in the Step 2 generation pass, each artifact call is attempted and
stored independently of the others, a failed call contributes exactly one
labeled warning of the form "Artifact: error", the pass reaches the
Complete state (flag set, timestamp recorded) iff at least one of the
three calls produced a (non-empty) body, the hard-failure message appears
exactly when no call did, and in particular a lone cover-letter failure
leaves one "Cover Letter"-labeled warning with both other artifacts
surviving. -/
theorem generation_pass_fault_isolation :
    ∀ (r c iv : Except String String) (ats : String → Except String String) (now : String),
      ((generation_pass r c iv ats now).resume_md = r.toOption
        ∧ (generation_pass r c iv ats now).cover_letter_md = c.toOption
        ∧ (generation_pass r c iv ats now).interview_md = iv.toOption)
      ∧ ((generation_pass r c iv ats now).generation_complete = true ↔
          (∃ t, r = .ok t ∧ t ≠ "") ∨ (∃ t, c = .ok t ∧ t ≠ "") ∨ (∃ t, iv = .ok t ∧ t ≠ ""))
      ∧ ((generation_pass r c iv ats now).generated_at =
          if (generation_pass r c iv ats now).generation_complete then some now else none)
      ∧ ((generation_pass r c iv ats now).hard_failure =
          !(generation_pass r c iv ats now).generation_complete)
      ∧ (∀ er ec ei, (generation_pass (.error er) (.error ec) (.error ei) ats now).errors
            = ["Resume: " ++ er, "Cover Letter: " ++ ec, "Interview Prep: " ++ ei]
          ∧ (generation_pass (.error er) (.error ec) (.error ei) ats now).hard_failure = true)
      ∧ (∀ e a b, (generation_pass (.ok a) (.error e) (.ok b) ats now).errors
            = ["Cover Letter: " ++ e]
          ∧ (generation_pass (.ok a) (.error e) (.ok b) ats now).resume_md = some a
          ∧ (generation_pass (.ok a) (.error e) (.ok b) ats now).interview_md = some b
          ∧ (generation_pass (.ok a) (.error e) (.ok b) ats now).generation_complete
              = (bodyPresent (some a) || bodyPresent (some b))) := by
  intro r c iv ats now
  refine ⟨⟨?_, ?_, ?_⟩, ?_, ?_, ?_, fun er ec ei => ⟨rfl, rfl⟩, fun e a b => ⟨rfl, rfl, rfl, ?_⟩⟩
  · cases r <;> rfl
  · cases c <;> rfl
  · cases iv <;> rfl
  · rcases r with er | tr <;> rcases c with ec | tc <;> rcases iv with ei | ti <;>
      (simp [generation_pass, Except.toOption, bodyPresent]; try tauto)
  · rfl
  · rfl
  · simp [generation_pass, Except.toOption, bodyPresent]

/-- C2, counterexample: the claim that the keyword-editing/confirmation
step cannot produce a confirmed list with fewer than 3 entries is false:
starting from a validly extracted 3-keyword list, blanking all three edit
boxes and leaving the add box empty confirms an empty keyword list. -/
theorem keyword_confirm_below_min :
    (validate_extracted_keywords
        ["Supply Chain Management", "SAP ERP", "Customer Service"]).isOk = true
    ∧ confirm_keywords ["", "", ""] "" = []
    ∧ ¬ (3 ≤ (confirm_keywords ["", "", ""] "").length) := by
  refine ⟨rfl, rfl, by decide⟩

/-- C2, amended: extraction rejects keyword lists with fewer than 3
entries, but the confirmation step applies the user's edits without
re-checking the minimum, so a confirmed keyword list can have fewer than
3 (even zero) entries. -/
theorem keyword_min_only_at_extraction :
    (∀ kws : List String, (validate_extracted_keywords kws).isOk = true ↔ 3 ≤ kws.length)
    ∧ (validate_extracted_keywords ["A", "B", "C"]).isOk = true
    ∧ (confirm_keywords ["", "", ""] "").length < 3 := by
  refine ⟨fun kws => ?_, rfl, by decide⟩
  by_cases h : kws.length < 3
  · simp only [validate_extracted_keywords, if_pos h, Except.isOk, Except.toBool]
    simp; omega
  · simp only [validate_extracted_keywords, if_neg h, Except.isOk, Except.toBool]
    simp; omega

/-- C3: with the default retries=2, call_model makes up to 3 attempts and
sleeps 1.5·(attempt+1) seconds after each failed non-final attempt: a
first-attempt success returns the cleaned text with no sleeps, a success
after one or two failures returns that attempt's cleaned text after the
schedule 1.5s (then 3.0s), and when all three attempts fail the error of
the final attempt is raised with no further sleep. -/
theorem call_model_retry_schedule :
    ∀ (r1 r2 : Except String String) (t e0 e1 e2 : String),
      call_model (genOf (.ok t) r1 r2) 2 = (.ok (clean_response t), [])
      ∧ call_model (genOf (.error e0) (.ok t) r2) 2 = (.ok (clean_response t), [3/2])
      ∧ call_model (genOf (.error e0) (.error e1) (.ok t)) 2
          = (.ok (clean_response t), [3/2, 3])
      ∧ call_model (genOf (.error e0) (.error e1) (.error e2)) 2
          = (.error e2, [3/2, 3]) := by
  intro r1 r2 t e0 e1 e2
  refine ⟨rfl, ?_, ?_, ?_⟩ <;> norm_num [call_model, call_modelLoop, genOf]

/-- C4: validate_inputs returns no error when the credential is non-empty,
the job description has at least 15 whitespace-delimited words and the
title has at least 3 trimmed characters; it returns the too-short message
on a 14-word description, the title-required message on an empty title,
and the credential message first when the credential is missing. -/
theorem validate_inputs_ordered (key jd title : String) :
    (key ≠ "" → 15 ≤ (pySplitWs jd).length → 3 ≤ (pyTrim title).length →
      validate_inputs key jd title = none)
    ∧ (key ≠ "" → (pySplitWs jd).length = 14 →
      validate_inputs key jd title
        = some "Job Description is too short. Paste the full JD (minimum ~15 words).")
    ∧ (key ≠ "" → 15 ≤ (pySplitWs jd).length →
      validate_inputs key jd "" = some "Target Job Title is required.")
    ∧ validate_inputs "" jd title = some "API Key is required." := by
  refine ⟨?_, ?_, ?_, by simp [validate_inputs]⟩
  · intro hk hjd ht
    have hjdne : jd ≠ "" := by
      intro h; rw [h] at hjd
      have : pySplitWs "" = [] := rfl
      rw [this] at hjd; simp at hjd
    have htne : title ≠ "" := by
      intro h; rw [h] at ht
      have : pyTrim "" = "" := rfl
      rw [this] at ht; simp at ht
    have h2 : ¬ (jd = "" ∨ (pySplitWs jd).length < 15) := by
      push_neg; exact ⟨hjdne, by omega⟩
    have h3 : ¬ (title = "" ∨ (pyTrim title).length < 3) := by
      push_neg; exact ⟨htne, by omega⟩
    simp [validate_inputs, hk, h2, h3]
  · intro hk hjd
    have h2 : jd = "" ∨ (pySplitWs jd).length < 15 := Or.inr (by omega)
    simp [validate_inputs, hk, h2]
  · intro hk hjd
    have hjdne : jd ≠ "" := by
      intro h; rw [h] at hjd
      have : pySplitWs "" = [] := rfl
      rw [this] at hjd; simp at hjd
    have h2 : ¬ (jd = "" ∨ (pySplitWs jd).length < 15) := by
      push_neg; exact ⟨hjdne, by omega⟩
    have h3 : ("" : String) = "" ∨ (pyTrim "").length < 3 := Or.inl rfl
    simp [validate_inputs, hk, h2, h3]

/-- C4 witness: concrete 15-word and 14-word job descriptions and concrete
titles exercising each branch of validate_inputs_ordered. -/
theorem validate_inputs_ordered_witness :
    validate_inputs "key" "w1 w2 w3 w4 w5 w6 w7 w8 w9 w10 w11 w12 w13 w14 w15" "Buyer" = none
    ∧ validate_inputs "key" "w1 w2 w3 w4 w5 w6 w7 w8 w9 w10 w11 w12 w13 w14" "Buyer"
        = some "Job Description is too short. Paste the full JD (minimum ~15 words)."
    ∧ validate_inputs "key" "w1 w2 w3 w4 w5 w6 w7 w8 w9 w10 w11 w12 w13 w14 w15" ""
        = some "Target Job Title is required." :=
  ⟨(validate_inputs_ordered "key" "w1 w2 w3 w4 w5 w6 w7 w8 w9 w10 w11 w12 w13 w14 w15"
      "Buyer").1 (by decide) (by decide) (by decide),
   (validate_inputs_ordered "key" "w1 w2 w3 w4 w5 w6 w7 w8 w9 w10 w11 w12 w13 w14"
      "Buyer").2.1 (by decide) (by decide),
   (validate_inputs_ordered "key" "w1 w2 w3 w4 w5 w6 w7 w8 w9 w10 w11 w12 w13 w14 w15"
      "Buyer").2.2.1 (by decide) (by decide)⟩

/-- C5: read_file dispatches on the lower-cased extension of the declared
filename: for ".pdf" it returns the trimmed newline-join of the page
texts, failing with EmptyContent when that is empty; for ".docx" likewise
over the paragraph texts; for every other extension it fails with
UnsupportedFileType carrying the original filename (in particular for a
file named resume.txt); the extraction is a single-attempt function with
no retry structure. -/
theorem read_file_dispatch (f : UploadedFile) :
    (strEnds (pyLower f.name) ".pdf" = true →
      (pyTrim (pdfText f.pdfPages) = "" →
        read_file f = .error (.emptyContent "PDF appears to be scanned/image-only."))
      ∧ (pyTrim (pdfText f.pdfPages) ≠ "" →
        read_file f = .ok (pyTrim (pdfText f.pdfPages))))
    ∧ (strEnds (pyLower f.name) ".pdf" = false → strEnds (pyLower f.name) ".docx" = true →
      (pyTrim (docxText f.docxParas) = "" →
        read_file f = .error (.emptyContent "DOCX file appears empty."))
      ∧ (pyTrim (docxText f.docxParas) ≠ "" →
        read_file f = .ok (pyTrim (docxText f.docxParas))))
    ∧ (strEnds (pyLower f.name) ".pdf" = false → strEnds (pyLower f.name) ".docx" = false →
      read_file f = .error (.unsupportedFileType f.name))
    ∧ read_file ⟨"resume.txt", f.pdfPages, f.docxParas⟩
        = .error (.unsupportedFileType "resume.txt") := by
  refine ⟨?_, ?_, ?_, rfl⟩
  · intro hpdf
    constructor
    · intro hempty; simp [read_file, hpdf, hempty]
    · intro hne; simp [read_file, hpdf, hne]
  · intro hpdf hdocx
    constructor
    · intro hempty; simp [read_file, hpdf, hdocx, hempty]
    · intro hne; simp [read_file, hpdf, hdocx, hne]
  · intro hpdf hdocx
    simp [read_file, hpdf, hdocx]

/-- C5 witness: an empty-text PDF, an empty DOCX, a text file named
resume.txt, and a non-empty upper-cased-extension PDF, each pushed through
read_file_dispatch. -/
theorem read_file_dispatch_witness :
    read_file ⟨"scan.PDF", [none, some " "], []⟩
      = .error (.emptyContent "PDF appears to be scanned/image-only.")
    ∧ read_file ⟨"empty.docx", [], ["", " "]⟩
      = .error (.emptyContent "DOCX file appears empty.")
    ∧ read_file ⟨"resume.txt", [], []⟩ = .error (.unsupportedFileType "resume.txt")
    ∧ read_file ⟨"cv.pdf", [some "Unit Supply Specialist"], []⟩
      = .ok "Unit Supply Specialist" := by
  refine ⟨?_, ?_, ?_, ?_⟩
  · exact ((read_file_dispatch ⟨"scan.PDF", [none, some " "], []⟩).1 (by decide)).1 (by decide)
  · exact (((read_file_dispatch ⟨"empty.docx", [], ["", " "]⟩).2.1 (by decide)) (by decide)).1
      (by decide)
  · exact (read_file_dispatch ⟨"resume.txt", [], []⟩).2.2.1 (by decide) (by decide)
  · exact ((read_file_dispatch ⟨"cv.pdf", [some "Unit Supply Specialist"], []⟩).1
      (by decide)).2 (by decide)

/-- C6: init_model returns the first listed model identifier containing
"flash"; when none does, the first containing "pro"; and when the listing
call errors or no identifier qualifies, the hard-coded default
"gemini-1.5-flash" — in every case it returns a handle rather than
raising. -/
theorem init_model_resolution :
    (∀ e, init_model (.error e) = "gemini-1.5-flash")
    ∧ (∀ (pre : List String) (m : String) (post : List String),
        (∀ x ∈ pre, containsSub x "flash" = false) → containsSub m "flash" = true →
        init_model (.ok (pre ++ m :: post)) = m)
    ∧ (∀ (pre : List String) (m : String) (post : List String),
        (∀ x ∈ pre ++ m :: post, containsSub x "flash" = false) →
        (∀ x ∈ pre, containsSub x "pro" = false) → containsSub m "pro" = true →
        init_model (.ok (pre ++ m :: post)) = m)
    ∧ (∀ ms : List String,
        (∀ x ∈ ms, containsSub x "flash" = false ∧ containsSub x "pro" = false) →
        init_model (.ok ms) = "gemini-1.5-flash") := by
  refine ⟨fun e => rfl, ?_, ?_, ?_⟩
  · intro pre m post h hm
    have hf := find_first_skip (fun x => containsSub x "flash") pre m post h hm
    simp [init_model, hf]
  · intro pre m post hall hpre hm
    have hf := find_none_of_all_false (fun x => containsSub x "flash") _ hall
    have hp := find_first_skip (fun x => containsSub x "pro") pre m post hpre hm
    simp [init_model, hf, hp]
  · intro ms h
    have hf := find_none_of_all_false (fun x => containsSub x "flash") ms
      (fun x hx => (h x hx).1)
    have hp := find_none_of_all_false (fun x => containsSub x "pro") ms
      (fun x hx => (h x hx).2)
    simp [init_model, hf, hp]

/-- C6 witness: concrete catalogs exercising the flash choice, the pro
fallback, the no-match default and the listing-error default of
init_model_resolution. -/
theorem init_model_resolution_witness :
    init_model (.error "network down") = "gemini-1.5-flash"
    ∧ init_model (.ok ["models/chat-bison", "models/gemini-1.5-flash-001", "models/gemini-pro"])
        = "models/gemini-1.5-flash-001"
    ∧ init_model (.ok ["models/chat-bison", "models/gemini-pro", "models/gemini-pro-vision"])
        = "models/gemini-pro"
    ∧ init_model (.ok ["models/chat-bison", "models/text-embedding-004"])
        = "gemini-1.5-flash" := by
  refine ⟨init_model_resolution.1 "network down", ?_, ?_, ?_⟩
  · exact init_model_resolution.2.1 ["models/chat-bison"] "models/gemini-1.5-flash-001"
      ["models/gemini-pro"] (by decide) (by decide)
  · exact init_model_resolution.2.2.1 ["models/chat-bison"] "models/gemini-pro"
      ["models/gemini-pro-vision"] (by decide) (by decide) (by decide)
  · exact init_model_resolution.2.2.2 ["models/chat-bison", "models/text-embedding-004"]
      (by decide)

/-- C7: the response cleaning in call_model trims the text and, when the
trimmed text begins with a code-fence marker, strips a leading fence line
(optionally tagged json) and a trailing fence line; in particular the
fenced JSON array input yields exactly the bare array text, both through
clean_response and through a successful call_model invocation, while
unfenced text is merely trimmed. -/
theorem clean_response_fences :
    clean_response " ```json\n[\"A\",\"B\",\"C\"]\n``` " = "[\"A\",\"B\",\"C\"]"
    ∧ clean_response "```\nhello\n```" = "hello"
    ∧ (∀ t, strStarts (pyTrim t) "```" = false → clean_response t = pyTrim t)
    ∧ (∀ r1 r2, call_model (genOf (.ok " ```json\n[\"A\",\"B\",\"C\"]\n``` ") r1 r2) 2
        = (.ok "[\"A\",\"B\",\"C\"]", [])) := by
  refine ⟨rfl, rfl, ?_, fun r1 r2 => rfl⟩
  intro t h
  simp [clean_response, h]

/-- C7 witness: an unfenced response is returned trimmed, via
clean_response_fences. -/
theorem clean_response_fences_witness :
    clean_response "  plain response  " = "plain response" := by
  have h := clean_response_fences.2.2.1 "  plain response  " (by decide)
  exact h.trans rfl

/-- C8: the filename slugs replace every non-alphanumeric character with
an underscore — company "Acme & Co." gives "Acme___Co_" and title
"Senior Buyer!" gives "Senior_Buyer_" — and default to "Resume" when the
company name is absent, empty or the sentinel "Unknown Company", and to
"Role" when the title is absent. -/
theorem slug_examples :
    company_slug (some "Acme & Co.") = "Acme___Co_"
    ∧ title_slug "Senior Buyer!" = "Senior_Buyer_"
    ∧ company_slug none = "Resume"
    ∧ company_slug (some "") = "Resume"
    ∧ company_slug (some "Unknown Company") = "Resume"
    ∧ title_slug "" = "Role" := by
  refine ⟨by decide, by decide, rfl, by decide, by decide, by decide⟩

/-- C9: the renderer maps a "## SKILLS" line to an upper-cased bold
section header with a bottom border, maps the bullet line
"* **Leadership:** led teams" to a bulleted paragraph holding one bold run
"Leadership:" and one plain run " led teams", and maps a 3-row pipe block
whose middle row is a ---|--- separator to a single 2-row 2-column table
with the separator discarded and the grid sized to the widest row. -/
theorem markdown_render_examples :
    markdown_to_docx "## SKILLS" = [.sectionHeader "SKILLS" true true]
    ∧ markdown_to_docx "* **Leadership:** led teams"
        = [.bulletItem [{ text := "Leadership:", bold := true, italic := false },
                        { text := " led teams", bold := false, italic := false }]]
    ∧ markdown_to_docx "| Role | Unit |\n|---|---|\n| Buyer | Supply |"
        = [.docTable [["Role", "Unit"], ["Buyer", "Supply"]]]
    ∧ markdown_to_docx "| a | b |\n|---|---|\n| c |"
        = [.docTable [["a", "b"], ["c", ""]]] := by
  refine ⟨by decide, by decide, by decide, by decide⟩

/-- C10: when the contact name field is blank, the assembled contact-info
record is None, so every downstream prompt ignores whatever city, phone,
email or LinkedIn values were entered: the resume header block and the
cover-letter header fall back to the full bracketed-placeholder forms and
the context block carries no contact section. -/
theorem blank_name_discards_contact :
    ∀ (name email city phone linkedin title : String),
      pyTrim name = "" →
      assemble_contact_info name email city phone linkedin = none
      ∧ resume_header_block (assemble_contact_info name email city phone linkedin) title
          = "# [Candidate Name]\n### **" ++ title ++
            "**\n**[City, State]** | **[Phone]** | **[Email]** | **[LinkedIn URL]**"
      ∧ cover_letter_header (assemble_contact_info name email city phone linkedin)
          = ("[Full Name]", "[Full Name]\n[City, State] | [Phone] | [Email]")
      ∧ context_contact_str (assemble_contact_info name email city phone linkedin) = "" := by
  intro name email city phone linkedin title h
  have hnone : assemble_contact_info name email city phone linkedin = none := by
    simp [assemble_contact_info, h]
  refine ⟨hnone, ?_, ?_, ?_⟩ <;> rw [hnone] <;> rfl

/-- C10 witness: a whitespace-only name with fully populated other fields
is discarded wholesale by blank_name_discards_contact. -/
theorem blank_name_discards_contact_witness :
    assemble_contact_info "   " "vet@example.com" "Augusta, GA" "(706) 555-1234"
        "linkedin.com/in/vet" = none
    ∧ resume_header_block (assemble_contact_info "   " "vet@example.com" "Augusta, GA"
          "(706) 555-1234" "linkedin.com/in/vet") "Procurement Buyer II"
        = "# [Candidate Name]\n### **Procurement Buyer II**\n**[City, State]** | **[Phone]** | **[Email]** | **[LinkedIn URL]**"
    ∧ context_contact_str (assemble_contact_info "   " "vet@example.com" "Augusta, GA"
          "(706) 555-1234" "linkedin.com/in/vet") = "" := by
  have h := blank_name_discards_contact "   " "vet@example.com" "Augusta, GA"
    "(706) 555-1234" "linkedin.com/in/vet" "Procurement Buyer II" (by decide)
  exact ⟨h.1, h.2.1.trans rfl, h.2.2.2⟩

end Autopilot
